import Mathlib

/-!
Shallow embedding of the linearis CLI (a Linear.app command-line client),
covering the project commands (`projects list|read|create|update|archive`),
the document commands (`documents create|list`), and the GraphQL service
layer for documents and attachments.

Network interaction is made explicit: each command action is a pure function
from its parsed options plus an environment of remote responses to a pair
`(List Req, Except Err α)` where the `List Req` traces the GraphQL requests
the action issues (in order) and the `Except` is the command outcome.
JavaScript-specific behaviours (string truthiness, `parseInt`, `||` defaults,
`Set` insertion-order dedup) are modelled explicitly.
-/

namespace Linearis

/-! ## JavaScript primitives -/

/-- Truthiness of an optional string option, as JavaScript sees it:
`undefined` and the empty string are falsy, every other string is truthy. -/
def jsTruthy : Option String → Bool
  | none => false
  | some s => !(s == "")

/-- Model of the JavaScript idiom `value || defaultValue` on an optional
string: the default is used when the value is `undefined` or empty. -/
def jsOrDefault (o : Option String) (d : String) : String :=
  match o with
  | none => d
  | some s => if s == "" then d else s

/-- Rendering of an optional string under JavaScript template interpolation:
`undefined` prints as the literal string undefined. -/
def jsShowOpt : Option String → String
  | none => "undefined"
  | some s => s

/-- Model of JavaScript `parseInt(s, 10)`: skip leading whitespace, accept an
optional sign, then read leading decimal digits; `none` models `NaN` (no
digits found). Trailing garbage after the digits is ignored, as in JS. -/
def parseIntJS (s : String) : Option Int :=
  let cs := s.data.dropWhile Char.isWhitespace
  let (sign, rest) :=
    match cs with
    | '-' :: t => ((-1 : Int), t)
    | '+' :: t => ((1 : Int), t)
    | t => ((1 : Int), t)
  let ds := rest.takeWhile Char.isDigit
  if ds.isEmpty then none
  else some (sign * (ds.foldl (fun a c => a * 10 + (c.toNat - 48)) (0 : Nat) : Nat))

/-- Decision of whether the character list `needle` occurs contiguously inside
`hay`; used to model the JavaScript `String.prototype.includes` check. -/
def listInfix (needle hay : List Char) : Bool :=
  (List.range (hay.length + 1)).any (fun i => needle.isPrefixOf (hay.drop i))

/-- Model of JavaScript `hay.includes(needle)` on strings. -/
def strContains (hay needle : String) : Bool :=
  listInfix needle.data hay.data

/-- Split of a character list on a single separator character, modelling the
JavaScript `split` used with one-character separators. -/
def splitOnChar (sep : Char) : List Char → List (List Char)
  | [] => [[]]
  | c :: rest =>
    match splitOnChar sep rest with
    | [] => [[c]]
    | g :: gs => if c == sep then [] :: g :: gs else (c :: g) :: gs

/-- String-level wrapper of `splitOnChar`. -/
def splitOnCharStr (s : String) (sep : Char) : List String :=
  (splitOnChar sep s.data).map String.mk

/-- Hexadecimal digit test used by the opaque-identifier classifier. -/
def isHexDigit (c : Char) : Bool :=
  c.isDigit || ('a' ≤ c && c ≤ 'f') || ('A' ≤ c && c ≤ 'F')

/-- Modelled from the spec: `isUuid` (src/utils/uuid.ts, absent from the
sources) classifies a string as having the opaque-identifier shape, described
as fixed-length hyphenated hexadecimal groups — the UUID 8-4-4-4-12 layout. -/
def isUuid (s : String) : Bool :=
  match splitOnCharStr s '-' with
  | [a, b, c, d, e] =>
      a.length == 8 && b.length == 4 && c.length == 4 && d.length == 4 &&
        e.length == 12 && (a ++ b ++ c ++ d ++ e).data.all isHexDigit
  | _ => false

/-! ## Errors -/

/-- Errors a command action can terminate with. `error` is a plain JavaScript
`new Error(message)`. `notFound` and `multipleMatches` are modelled from the
spec: they stand for `notFoundError` and `multipleMatchesError` from
src/utils/error-messages.ts (absent from the sources), described as a
not-found error naming the field and value, and an ambiguity error listing
every candidate together with a suggestion. -/
inductive Err where
  | error (message : String)
  | notFound (entity : String) (value : String)
  | multipleMatches (entity : String) (value : String)
      (candidates : List String) (suggestion : String)
deriving DecidableEq, Repr

/-- Message carried by an error, as read by a JavaScript `catch` block. The
renderings of the two structured constructors are modelled from the spec. -/
def errMessage : Err → String
  | .error m => m
  | .notFound e v => e ++ " not found: " ++ v
  | .multipleMatches e v _ _ => "Multiple " ++ e ++ " matches for " ++ v

/-! ## Response payload shapes -/

/-- Paginated connection wrapper as returned by the GraphQL API. -/
structure Conn (α : Type) where
  nodes : List α
deriving DecidableEq, Repr

/-- Node shape returned by FIND_PROJECT_BY_NAME_QUERY. -/
structure ProjectNode where
  id : String
  name : String
  state : String
deriving DecidableEq, Repr

/-- User reference (id and name) appearing in nested relationships. -/
structure UserRef where
  id : String
  name : String
deriving DecidableEq, Repr

/-- Team reference appearing in a project's teams connection. -/
structure TeamRef where
  id : String
  key : String
  name : String
deriving DecidableEq, Repr

/-- Project milestone node shape from GET_PROJECT_BY_ID_QUERY. -/
structure MilestoneNode where
  id : String
  name : String
deriving DecidableEq, Repr

/-- Issue node shape nested in a project response. -/
structure IssueNode where
  id : String
  identifier : String
  title : String
deriving DecidableEq, Repr

/-- Raw GraphQL project value, before transformation: the core scalar fields
plus the nested relationships, of which the paginated ones arrive wrapped in
connection objects and may be absent depending on the query used. -/
structure ProjectJson where
  id : String
  name : String
  state : String
  lead : Option UserRef
  teams : Option (Conn TeamRef)
  members : Option (Conn UserRef)
  projectMilestones : Option (Conn MilestoneNode)
  issues : Option (Conn IssueNode)
deriving DecidableEq, Repr

/-- Output shape produced by `transformProject`: nested connections flattened
to arrays; the relationships only fetched by some queries stay optional. -/
structure TransformedProject where
  id : String
  name : String
  state : String
  lead : Option UserRef
  teams : List TeamRef
  members : Option (List UserRef)
  projectMilestones : Option (List MilestoneNode)
  issues : Option (List IssueNode)
deriving DecidableEq, Repr

/-- Embedding of `transformProject` (src/commands/projects.ts): spread the
project, flatten `teams.nodes` with a `[]` fallback, and flatten the three
optional connections with optional chaining (absent stays `undefined`). -/
def transformProject (project : ProjectJson) : TransformedProject :=
  { id := project.id
    name := project.name
    state := project.state
    lead := project.lead
    teams := (project.teams.map Conn.nodes).getD []
    members := project.members.map Conn.nodes
    projectMilestones := project.projectMilestones.map Conn.nodes
    issues := project.issues.map Conn.nodes }

/-! ## Requests -/

/-- Variables of UPDATE_PROJECT_MUTATION as assembled by the update action.
A doubly-optional field distinguishes absent (`none`), explicit null
(`some none`) and a value (`some (some v)`); `priority` is present whenever
the option was supplied, holding `none` when `parseInt` returned `NaN`. -/
structure UpdateVars where
  id : String
  name : Option String
  description : Option String
  icon : Option String
  color : Option String
  priority : Option (Option Int)
  leadId : Option (Option String)
  startDate : Option (Option String)
  targetDate : Option (Option String)
  teamIds : Option (List String)
deriving DecidableEq, Repr

/-- Variables of CREATE_PROJECT_MUTATION as assembled by the create action. -/
structure CreateVars where
  name : String
  teamIds : List String
  description : Option String
  icon : Option String
  color : Option String
  leadId : Option String
  priority : Option (Option Int)
  startDate : Option String
  targetDate : Option String
deriving DecidableEq, Repr

/-- Input object of DocumentCreate (src/utils/linear-types.ts). -/
structure DocumentCreateInput where
  title : String
  content : Option String
  projectId : Option String
  teamId : Option String
  icon : Option String
  color : Option String
deriving DecidableEq, Repr

/-- Input object of AttachmentCreate (src/utils/linear-types.ts). -/
structure AttachmentCreateInput where
  issueId : String
  url : String
  title : String
  subtitle : Option String
  commentBody : Option String
  iconUrl : Option String
deriving DecidableEq, Repr

/-- GraphQL requests issued through `graphQLService.rawRequest` by the code
modelled here, each carrying its variables. -/
inductive Req where
  | findProjectByName (name : String)
  | listProjects (first : Option Int) (includeArchived : Bool)
  | getProjectById (id : String)
  | createProject (vars : CreateVars)
  | updateProject (vars : UpdateVars)
  | archiveProject (id : String)
  | createDocument (input : DocumentCreateInput)
  | updateDocument (id : String) (input : DocumentCreateInput)
  | deleteDocument (id : String)
  | listDocuments (projectId : Option String) (first : Int)
  | listDocumentsBySlugIds (slugIds : List String) (first : Int)
  | listAttachments (issueId : String)
  | createAttachment (input : AttachmentCreateInput)
deriving DecidableEq, Repr

/-- Mutation requests among `Req`: those whose GraphQL operation mutates
remote state (queries are the rest). -/
def Req.isMutation : Req → Bool
  | .createProject _ => true
  | .updateProject _ => true
  | .archiveProject _ => true
  | .createDocument _ => true
  | .updateDocument _ _ => true
  | .deleteDocument _ => true
  | .createAttachment _ => true
  | _ => false

/-! ## Project name resolution -/

/-- Candidate formatting used by the ambiguity error in
`resolveProjectIdFromGraphQL`: the project name in quotes followed by its
state in parentheses. -/
def fmtCandidate (p : ProjectNode) : String :=
  "\"" ++ p.name ++ "\" (" ++ p.state ++ ")"

/-- Embedding of `resolveProjectIdFromGraphQL` (src/commands/projects.ts):
a UUID-shaped input is returned as-is without any request; otherwise
FIND_PROJECT_BY_NAME_QUERY is issued and the response's node list decides
between not-found (zero matches), the unique id (one match) and an
ambiguity error listing every candidate (more than one). The `findResult`
argument stands for the query response, whose `projects` field may be
absent (`result.projects?.nodes || []`). -/
def resolveProjectIdFromGraphQL (projectNameOrId : String)
    (findResult : Option (Conn ProjectNode)) :
    List Req × Except Err String :=
  if isUuid projectNameOrId then
    ([], .ok projectNameOrId)
  else
    let reqs := [Req.findProjectByName projectNameOrId]
    let nodes := (findResult.map Conn.nodes).getD []
    match nodes with
    | [] => (reqs, .error (.notFound ("Project") projectNameOrId))
    | [n] => (reqs, .ok n.id)
    | ns => (reqs, .error (.multipleMatches ("project") projectNameOrId
        (ns.map fmtCandidate) ("use the project ID")))

/-! ## Projects commands -/

/-- Parsed options of `projects list`. Commander supplies the string default
for `--limit`, but the model keeps it optional to cover the raw shape. -/
structure ProjectListOptions where
  limit : Option String
  includeArchived : Bool
deriving DecidableEq, Repr

/-- Environment of `projects list`: the LIST_PROJECTS_QUERY response, whose
`projects` field may be absent. -/
structure ProjectListEnv where
  listResp : Option (Conn ProjectJson)
deriving DecidableEq, Repr

/-- Embedding of the `projects list` action (src/commands/projects.ts): the
limit string is passed through `parseInt(options.limit || "100")` with no
validation, the query is issued, and the nodes are transformed. A `first`
value of `none` in the request records that `NaN` was forwarded. -/
def projectsListAction (options : ProjectListOptions) (env : ProjectListEnv) :
    List Req × Except Err (List TransformedProject) :=
  let first := parseIntJS (jsOrDefault options.limit ("100"))
  let reqs := [Req.listProjects first options.includeArchived]
  (reqs, .ok (((env.listResp.map Conn.nodes).getD []).map transformProject))

/-- Parsed options of `projects update`. -/
structure ProjectUpdateOptions where
  name : Option String
  description : Option String
  icon : Option String
  color : Option String
  lead : Option String
  clearLead : Bool
  priority : Option String
  startDate : Option String
  clearStartDate : Bool
  targetDate : Option String
  clearTargetDate : Bool
  team : Option String
deriving DecidableEq, Repr

/-- Mutation response payload with a success flag and a project. -/
structure ProjectMutPayload where
  success : Bool
  project : ProjectJson
deriving DecidableEq, Repr

/-- Environment of `projects update`: the name-lookup response, the result of
`linearService.resolveTeamId` (a separate service, treated as an oracle), and
the UPDATE_PROJECT_MUTATION response, whose `projectUpdate` field may be
absent (`result.projectUpdate?.success`). -/
structure ProjectUpdateEnv where
  findResult : Option (Conn ProjectNode)
  teamResolve : Except Err String
  updateResp : Option ProjectMutPayload
deriving Repr

/-- Update-variable assembly of the `projects update` action: start from the
resolved id, add each plain option only when it was provided, and let each
clear flag write an explicit null into its field, taking precedence in the
`if/else if` over a provided value. -/
def mkUpdateVars (projectId : String) (options : ProjectUpdateOptions)
    (teamIds : Option (List String)) : UpdateVars :=
  { id := projectId
    name := options.name
    description := options.description
    icon := options.icon
    color := options.color
    priority := options.priority.map parseIntJS
    leadId :=
      if options.clearLead then some none
      else options.lead.map some
    startDate :=
      if options.clearStartDate then some none
      else options.startDate.map some
    targetDate :=
      if options.clearTargetDate then some none
      else options.targetDate.map some
    teamIds := teamIds }

/-- Embedding of the `projects update` action (src/commands/projects.ts):
validate the mutually exclusive flag pairs, resolve the project reference,
build the partial-update variables, resolve the team when `--team` was
given, issue UPDATE_PROJECT_MUTATION and check its success flag. -/
def projectsUpdateAction (projectIdOrName : String)
    (options : ProjectUpdateOptions) (env : ProjectUpdateEnv) :
    List Req × Except Err TransformedProject :=
  if jsTruthy options.lead && options.clearLead then
    ([], .error (.error ("Cannot use --lead and --clear-lead together")))
  else if jsTruthy options.startDate && options.clearStartDate then
    ([], .error (.error ("Cannot use --start-date and --clear-start-date together")))
  else if jsTruthy options.targetDate && options.clearTargetDate then
    ([], .error (.error ("Cannot use --target-date and --clear-target-date together")))
  else
    match resolveProjectIdFromGraphQL projectIdOrName env.findResult with
    | (reqs₀, .error e) => (reqs₀, .error e)
    | (reqs₀, .ok projectId) =>
      let teamIdsRes : Except Err (Option (List String)) :=
        match options.team with
        | none => .ok none
        | some _ => env.teamResolve.map (fun teamId => some [teamId])
      match teamIdsRes with
      | .error e => (reqs₀, .error e)
      | .ok teamIds =>
        let vars := mkUpdateVars projectId options teamIds
        let reqs := reqs₀ ++ [Req.updateProject vars]
        (reqs,
          match env.updateResp with
          | some payload =>
              if payload.success then .ok (transformProject payload.project)
              else .error (.error ("Failed to update project"))
          | none => .error (.error ("Failed to update project")))

/-- Parsed options of `projects create` (the name is a positional argument). -/
structure ProjectCreateOptions where
  team : String
  description : Option String
  icon : Option String
  color : Option String
  lead : Option String
  priority : Option String
  startDate : Option String
  targetDate : Option String
deriving DecidableEq, Repr

/-- Environment of `projects create`: the team-resolution oracle and the
CREATE_PROJECT_MUTATION response (`result.projectCreate?.success`). -/
structure ProjectCreateEnv where
  teamResolve : Except Err String
  createResp : Option ProjectMutPayload
deriving Repr

/-- Embedding of the `projects create` action (src/commands/projects.ts):
resolve the team, issue CREATE_PROJECT_MUTATION with the option values
(priority only when the string is truthy, via `parseInt`), and fail with a
bare "Failed to create project" error when the success flag is not set. -/
def projectsCreateAction (name : String) (options : ProjectCreateOptions)
    (env : ProjectCreateEnv) :
    List Req × Except Err TransformedProject :=
  match env.teamResolve with
  | .error e => ([], .error e)
  | .ok teamId =>
    let vars : CreateVars :=
      { name := name
        teamIds := [teamId]
        description := options.description
        icon := options.icon
        color := options.color
        leadId := options.lead
        priority :=
          if jsTruthy options.priority then
            some (parseIntJS (jsOrDefault options.priority ("")))
          else none
        startDate := options.startDate
        targetDate := options.targetDate }
    let reqs := [Req.createProject vars]
    (reqs,
      match env.createResp with
      | some payload =>
          if payload.success then .ok (transformProject payload.project)
          else .error (.error ("Failed to create project"))
      | none => .error (.error ("Failed to create project")))

/-- Archive success output (`{ archived: true, id }`). -/
structure ArchiveOut where
  archived : Bool
  id : String
deriving DecidableEq, Repr

/-- Archive mutation response payload (success flag only). -/
structure ArchivePayload where
  success : Bool
deriving DecidableEq, Repr

/-- Environment of `projects archive`: the name-lookup response and the
ARCHIVE_PROJECT_MUTATION response (`result.projectArchive?.success`). -/
structure ProjectArchiveEnv where
  findResult : Option (Conn ProjectNode)
  archiveResp : Option ArchivePayload
deriving DecidableEq, Repr

/-- Embedding of the `projects archive` action (src/commands/projects.ts). -/
def projectsArchiveAction (projectIdOrName : String)
    (env : ProjectArchiveEnv) : List Req × Except Err ArchiveOut :=
  match resolveProjectIdFromGraphQL projectIdOrName env.findResult with
  | (reqs₀, .error e) => (reqs₀, .error e)
  | (reqs₀, .ok projectId) =>
    let reqs := reqs₀ ++ [Req.archiveProject projectId]
    (reqs,
      match env.archiveResp with
      | some payload =>
          if payload.success then .ok { archived := true, id := projectId }
          else .error (.error ("Failed to archive project"))
      | none => .error (.error ("Failed to archive project")))

/-! ## Documents and attachments service layer -/

/-- Document entity returned from GraphQL document operations. -/
structure DocumentJson where
  id : String
  title : String
  slugId : String
  url : String
deriving DecidableEq, Repr

/-- Attachment entity returned from GraphQL attachment operations. -/
structure AttachmentJson where
  id : String
  title : String
  url : String
deriving DecidableEq, Repr

/-- DocumentCreate mutation response payload. -/
structure DocMutPayload where
  success : Bool
  document : DocumentJson
deriving DecidableEq, Repr

/-- AttachmentCreate mutation response payload. -/
structure AttachMutPayload where
  success : Bool
  attachment : AttachmentJson
deriving DecidableEq, Repr

/-- Embedding of `GraphQLDocumentsService.createDocument`
(src/utils/graphql-documents-service.ts): on a false success flag, throw an
error naming the operation, the title, and the project and team ids when part
of the input. -/
def createDocument (input : DocumentCreateInput) (resp : DocMutPayload) :
    Except Err DocumentJson :=
  if resp.success then .ok resp.document
  else .error (.error
    ("Failed to create document \"" ++ input.title ++ "\"" ++
      (if jsTruthy input.projectId then
        " in project " ++ jsShowOpt input.projectId else "") ++
      (if jsTruthy input.teamId then
        " for team " ++ jsShowOpt input.teamId else "")))

/-- Embedding of `GraphQLDocumentsService.updateDocument`: on a false success
flag, throw an error naming the operation and the document id. -/
def updateDocumentService (id : String) (resp : DocMutPayload) :
    Except Err DocumentJson :=
  if resp.success then .ok resp.document
  else .error (.error ("Failed to update document: " ++ id))

/-- Embedding of `GraphQLAttachmentsService.createAttachment`
(src/utils/graphql-attachments-service.ts): on a false success flag, throw an
error naming the operation, the issue id and the URL from the input. -/
def createAttachment (input : AttachmentCreateInput)
    (resp : AttachMutPayload) : Except Err AttachmentJson :=
  if resp.success then .ok resp.attachment
  else .error (.error
    ("Failed to create attachment on issue " ++ input.issueId ++
      " for URL \"" ++ input.url ++ "\""))

/-! ## Document URL extraction -/

/-- Result of a successful JavaScript `new URL(url)` parse: the components
the extraction logic reads. A failed parse (the constructor throwing) is
`none` from the parser oracle. -/
structure ParsedUrl where
  hostname : String
  pathname : String
deriving DecidableEq, Repr

/-- Index of the last occurrence of a character in a string, as in JavaScript
`lastIndexOf`; `none` models the -1 result. -/
def lastIndexOfChar (s : String) (c : Char) : Option Nat :=
  (s.data.reverse.findIdx? (fun x => x == c)).map
    (fun i => s.data.length - 1 - i)

/-- Embedding of `extractDocumentIdFromUrl` (src/commands/documents.ts): parse
the URL (a failed parse yields `null`), require a hostname containing
linear.app, locate the path segment after "document", and return the part of
that slug after its final hyphen, with empty results normalized to `null`.
The `parseUrl` argument is the platform URL-parser oracle. -/
def extractDocumentIdFromUrl (parseUrl : String → Option ParsedUrl)
    (url : String) : Option String :=
  match parseUrl url with
  | none => none
  | some parsed =>
    if !strContains parsed.hostname ("linear.app") then none
    else
      let pathParts := splitOnCharStr parsed.pathname '/'
      match pathParts.findIdx? (fun p => p == "document") with
      | none => none
      | some docIndex =>
        if docIndex + 1 ≥ pathParts.length then none
        else
          let docSlug := pathParts.getD (docIndex + 1) ""
          match lastIndexOfChar docSlug '-' with
          | none => if docSlug == "" then none else some docSlug
          | some lastHyphenIndex =>
            let tail := String.mk (docSlug.data.drop (lastHyphenIndex + 1))
            if tail == "" then none else some tail

/-- Insertion-order deduplication worker: drop elements already seen. -/
def dedupGo : List String → List String → List String
  | _, [] => []
  | seen, x :: rest =>
    if x ∈ seen then dedupGo seen rest
    else x :: dedupGo (x :: seen) rest

/-- Model of the JavaScript `[...new Set(xs)]` idiom: keep the first
occurrence of each element, preserving insertion order. -/
def jsSetDedup (xs : List String) : List String :=
  dedupGo [] xs

/-! ## Documents commands -/

/-- Parsed options of `documents create`. -/
structure DocumentCreateOptions where
  title : String
  content : Option String
  project : Option String
  team : Option String
  icon : Option String
  color : Option String
  attachTo : Option String
deriving DecidableEq, Repr

/-- Environment of `documents create`: resolution oracles for project, team
and issue, and the two mutation responses. -/
structure DocumentCreateEnv where
  resolveProject : Except Err String
  resolveTeam : Except Err String
  createResp : DocMutPayload
  resolveIssue : Except Err String
  attachResp : AttachMutPayload
deriving Repr

/-- Error message produced by `documents create` when the document was created
but the follow-up attachment failed: it reports the created document id, the
issue reference the user typed, the underlying message, and a ready-to-run
retry command. -/
def attachFailMsg (document : DocumentJson) (attachTo : String)
    (errorMessage : String) : String :=
  "Document created (" ++ document.id ++
    ") but failed to attach to issue \"" ++ attachTo ++ "\": " ++
    errorMessage ++ ". " ++
    "To retry attachment: linearis attachments create --issue \"" ++
    attachTo ++ "\" --url \"" ++ document.url ++ "\" --title \"" ++
    document.title ++ "\""

/-- Embedding of the `documents create` action (src/commands/documents.ts):
resolve the optional project and team, create the document, and when
`--attach-to` was given resolve the issue and create an attachment pointing
at the document URL; an attachment failure is caught and rethrown with the
actionable message, leaving the created document in place. -/
def documentsCreateAction (options : DocumentCreateOptions)
    (env : DocumentCreateEnv) : List Req × Except Err DocumentJson :=
  let pidRes : Except Err (Option String) :=
    if jsTruthy options.project then env.resolveProject.map some else .ok none
  match pidRes with
  | .error e => ([], .error e)
  | .ok projectId =>
    let tidRes : Except Err (Option String) :=
      if jsTruthy options.team then env.resolveTeam.map some else .ok none
    match tidRes with
    | .error e => ([], .error e)
    | .ok teamId =>
      let input : DocumentCreateInput :=
        { title := options.title
          content := options.content
          projectId := projectId
          teamId := teamId
          icon := options.icon
          color := options.color }
      let reqs₀ := [Req.createDocument input]
      match createDocument input env.createResp with
      | .error e => (reqs₀, .error e)
      | .ok document =>
        if jsTruthy options.attachTo then
          match env.resolveIssue with
          | .error e => (reqs₀, .error e)
          | .ok issueId =>
            let ainput : AttachmentCreateInput :=
              { issueId := issueId
                url := document.url
                title := document.title
                subtitle := none
                commentBody := none
                iconUrl := none }
            let reqs := reqs₀ ++ [Req.createAttachment ainput]
            match createAttachment ainput env.attachResp with
            | .error attachError =>
                (reqs, .error (.error (attachFailMsg document
                  (jsShowOpt options.attachTo) (errMessage attachError))))
            | .ok _ => (reqs, .ok document)
        else (reqs₀, .ok document)

/-- Parsed options of `documents list`. -/
structure DocumentListOptions where
  project : Option String
  issue : Option String
  limit : Option String
deriving DecidableEq, Repr

/-- Environment of `documents list`: the URL-parser oracle, the issue and
project resolution oracles, the attachment listing result (the service throws
when the issue is absent), and the two document listing responses. -/
structure DocumentListEnv where
  parseUrl : String → Option ParsedUrl
  resolveIssue : Except Err String
  attachments : Except Err (List AttachmentJson)
  docsBySlug : List DocumentJson
  resolveProject : Except Err String
  docs : List DocumentJson

/-- Embedding of the `documents list` action (src/commands/documents.ts):
reject `--project` together with `--issue`, validate the limit, then either
follow the issue branch (list attachments, extract and deduplicate document
slug ids, short-circuit to an empty listing when none remain, otherwise fetch
the documents by slug id) or the project/no-filter branch. -/
def documentsListAction (options : DocumentListOptions)
    (env : DocumentListEnv) : List Req × Except Err (List DocumentJson) :=
  if jsTruthy options.project && jsTruthy options.issue then
    ([], .error (.error
      ("Cannot use --project and --issue together. Choose one filter.")))
  else
    let limitRes := parseIntJS (jsOrDefault options.limit ("50"))
    let invalidLimit : Bool :=
      match limitRes with
      | none => true
      | some limit => limit < 1
    if invalidLimit then
      ([], .error (.error ("Invalid limit \"" ++ jsShowOpt options.limit ++
        "\": must be a positive number")))
    else
      let limit := limitRes.getD 0
      if jsTruthy options.issue then
        match env.resolveIssue with
        | .error e => ([], .error e)
        | .ok issueId =>
          match env.attachments with
          | .error e => ([Req.listAttachments issueId], .error e)
          | .ok attachments =>
            let documentSlugIds := jsSetDedup (attachments.filterMap
              (fun att => extractDocumentIdFromUrl env.parseUrl att.url))
            if documentSlugIds.length = 0 then
              ([Req.listAttachments issueId], .ok [])
            else
              ([Req.listAttachments issueId,
                Req.listDocumentsBySlugIds documentSlugIds limit],
               .ok env.docsBySlug)
      else
        let pidRes : Except Err (Option String) :=
          if jsTruthy options.project then env.resolveProject.map some
          else .ok none
        match pidRes with
        | .error e => ([], .error e)
        | .ok projectId =>
          ([Req.listDocuments projectId limit], .ok env.docs)

/-! ## Shared lemmas -/

/-- Name resolution issues at most the single name-lookup request. -/
lemma resolve_trace_shape (i : String) (f : Option (Conn ProjectNode)) :
    (resolveProjectIdFromGraphQL i f).1 = [] ∨
    (resolveProjectIdFromGraphQL i f).1 = [Req.findProjectByName i] := by
  unfold resolveProjectIdFromGraphQL
  by_cases h : isUuid i
  · left; simp [h]
  · right
    simp only [h, Bool.false_eq_true, if_false]
    cases hn : (f.map Conn.nodes).getD [] with
    | nil => simp
    | cons a t => cases t <;> simp

/-- Membership in the singleton name-lookup trace forces the request to be
the lookup itself, which is not a mutation. -/
lemma no_mutation_singleton_find (i : String) :
    ∀ r ∈ [Req.findProjectByName i], r.isMutation = false := by
  intro r hr
  rw [List.mem_singleton] at hr
  subst hr
  rfl

/-- Name resolution never issues a mutation request. -/
lemma resolve_no_mutation (i : String) (f : Option (Conn ProjectNode)) :
    ∀ r ∈ (resolveProjectIdFromGraphQL i f).1, r.isMutation = false := by
  rcases resolve_trace_shape i f with h | h <;> rw [h]
  · intro r hr; cases hr
  · exact no_mutation_singleton_find i

/-- Claim C5: an input already in UUID shape is returned unchanged by project
resolution, with no request issued — in particular no name lookup. -/
theorem uuid_skips_lookup (input : String)
    (findResult : Option (Conn ProjectNode)) (h : isUuid input = true) :
    resolveProjectIdFromGraphQL input findResult = ([], .ok input) := by
  simp [resolveProjectIdFromGraphQL, h]

/-- Witness for C5 at the concrete UUID 123e4567-e89b-12d3-a456-426614174000,
with a lookup table that would have matched a project by name. -/
theorem uuid_skips_lookup_witness :
    resolveProjectIdFromGraphQL ("123e4567-e89b-12d3-a456-426614174000")
      (some { nodes := [{ id := "p1", name := "Website", state := "started" }] }) =
      ([], .ok ("123e4567-e89b-12d3-a456-426614174000")) :=
  uuid_skips_lookup _ _ (by decide)

/-- Claim C4: a name lookup returning zero matches makes resolution fail with
a not-found error naming the entity kind and the user-supplied value, and the
update and archive commands then terminate with that error having issued no
mutation request. -/
theorem zero_matches_not_found (input : String)
    (findResult : Option (Conn ProjectNode))
    (hu : isUuid input = false)
    (h0 : (findResult.map Conn.nodes).getD [] = []) :
    resolveProjectIdFromGraphQL input findResult =
      ([Req.findProjectByName input],
        .error (.notFound ("Project") input)) ∧
    (∀ options env, env.findResult = findResult →
      (jsTruthy options.lead && options.clearLead) = false →
      (jsTruthy options.startDate && options.clearStartDate) = false →
      (jsTruthy options.targetDate && options.clearTargetDate) = false →
      (projectsUpdateAction input options env).2 =
        .error (.notFound ("Project") input) ∧
      ∀ r ∈ (projectsUpdateAction input options env).1, r.isMutation = false) ∧
    (∀ env : ProjectArchiveEnv, env.findResult = findResult →
      (projectsArchiveAction input env).2 =
        .error (.notFound ("Project") input) ∧
      ∀ r ∈ (projectsArchiveAction input env).1, r.isMutation = false) := by
  have hres : resolveProjectIdFromGraphQL input findResult =
      ([Req.findProjectByName input], .error (.notFound ("Project") input)) := by
    unfold resolveProjectIdFromGraphQL
    simp only [hu, Bool.false_eq_true, if_false, h0]
  refine ⟨hres, ?_, ?_⟩
  · intro options env henv hv1 hv2 hv3
    have : projectsUpdateAction input options env =
        ([Req.findProjectByName input], .error (.notFound ("Project") input)) := by
      unfold projectsUpdateAction
      simp only [hv1, hv2, hv3, Bool.false_eq_true, if_false, henv, hres]
    rw [this]
    exact ⟨rfl, no_mutation_singleton_find input⟩
  · intro env henv
    have : projectsArchiveAction input env =
        ([Req.findProjectByName input], .error (.notFound ("Project") input)) := by
      unfold projectsArchiveAction
      simp only [henv, hres]
    rw [this]
    exact ⟨rfl, no_mutation_singleton_find input⟩

/-- Witness for C4: resolving the name Website against an empty lookup result
fails with the not-found error and the archive command issues no mutation. -/
theorem zero_matches_not_found_witness :
    resolveProjectIdFromGraphQL ("Website") (some { nodes := [] }) =
      ([Req.findProjectByName ("Website")],
        .error (.notFound ("Project") ("Website"))) ∧
    (projectsArchiveAction ("Website")
      { findResult := some { nodes := [] }, archiveResp := none }).2 =
      .error (.notFound ("Project") ("Website")) := by
  have h := zero_matches_not_found ("Website") (some { nodes := [] })
    (by decide) (by decide)
  exact ⟨h.1, (h.2.2 _ rfl).1⟩

/-- Claim C3: a name lookup returning more than one match makes resolution
fail with an ambiguity error listing every candidate — each entry mentioning
the candidate's name and state — and the update and archive commands then
terminate with that error having issued no mutation request. -/
theorem ambiguous_name_fails_listing_candidates (input : String)
    (findResult : Option (Conn ProjectNode)) (nodes : List ProjectNode)
    (hu : isUuid input = false)
    (hn : (findResult.map Conn.nodes).getD [] = nodes)
    (hlen : 2 ≤ nodes.length) :
    resolveProjectIdFromGraphQL input findResult =
      ([Req.findProjectByName input],
        .error (.multipleMatches ("project") input (nodes.map fmtCandidate)
          ("use the project ID"))) ∧
    (∀ p ∈ nodes, fmtCandidate p ∈ nodes.map fmtCandidate ∧
      ∃ pre mid post, fmtCandidate p = pre ++ p.name ++ mid ++ p.state ++ post) ∧
    (∀ options env, env.findResult = findResult →
      (jsTruthy options.lead && options.clearLead) = false →
      (jsTruthy options.startDate && options.clearStartDate) = false →
      (jsTruthy options.targetDate && options.clearTargetDate) = false →
      (projectsUpdateAction input options env).2 =
        .error (.multipleMatches ("project") input (nodes.map fmtCandidate)
          ("use the project ID")) ∧
      ∀ r ∈ (projectsUpdateAction input options env).1, r.isMutation = false) ∧
    (∀ env : ProjectArchiveEnv, env.findResult = findResult →
      (projectsArchiveAction input env).2 =
        .error (.multipleMatches ("project") input (nodes.map fmtCandidate)
          ("use the project ID")) ∧
      ∀ r ∈ (projectsArchiveAction input env).1, r.isMutation = false) := by
  have hres : resolveProjectIdFromGraphQL input findResult =
      ([Req.findProjectByName input],
        .error (.multipleMatches ("project") input (nodes.map fmtCandidate)
          ("use the project ID"))) := by
    unfold resolveProjectIdFromGraphQL
    simp only [hu, Bool.false_eq_true, if_false, hn]
    match nodes, hlen with
    | a :: b :: t, _ => rfl
  refine ⟨hres, ?_, ?_, ?_⟩
  · intro p hp
    exact ⟨List.mem_map_of_mem fmtCandidate hp,
      "\"", "\" (", ")", rfl⟩
  · intro options env henv hv1 hv2 hv3
    have : projectsUpdateAction input options env =
        ([Req.findProjectByName input],
          .error (.multipleMatches ("project") input (nodes.map fmtCandidate)
            ("use the project ID"))) := by
      unfold projectsUpdateAction
      simp only [hv1, hv2, hv3, Bool.false_eq_true, if_false, henv, hres]
    rw [this]
    exact ⟨rfl, no_mutation_singleton_find input⟩
  · intro env henv
    have : projectsArchiveAction input env =
        ([Req.findProjectByName input],
          .error (.multipleMatches ("project") input (nodes.map fmtCandidate)
            ("use the project ID"))) := by
      unfold projectsArchiveAction
      simp only [henv, hres]
    rw [this]
    exact ⟨rfl, no_mutation_singleton_find input⟩

/-- Witness for C3: the name Website matching two projects fails with the
ambiguity error listing both candidates with their states. -/
theorem ambiguous_name_fails_witness :
    resolveProjectIdFromGraphQL ("Website")
      (some { nodes := [{ id := "p1", name := "Website", state := "started" },
                        { id := "p2", name := "website", state := "backlog" }] }) =
      ([Req.findProjectByName ("Website")],
        .error (.multipleMatches ("project") ("Website")
          (["\"Website\" (started)", "\"website\" (backlog)"])
          ("use the project ID"))) := by
  have h := ambiguous_name_fails_listing_candidates ("Website")
    (some { nodes := [{ id := "p1", name := "Website", state := "started" },
                      { id := "p2", name := "website", state := "backlog" }] })
    ([{ id := "p1", name := "Website", state := "started" },
      { id := "p2", name := "website", state := "backlog" }])
    (by decide) (by decide) (by decide)
  exact h.1

/-- Claim C7: the response transformer flattens each nested paginated node
list (teams, members, projectMilestones, issues) to a flat array when the
relationship is present, and maps an absent optional relationship to
undefined — except teams, which falls back to the empty array. -/
theorem transform_project_flattens (p : ProjectJson) :
    (∀ ts, p.teams = some ts → (transformProject p).teams = ts.nodes) ∧
    (p.teams = none → (transformProject p).teams = []) ∧
    (∀ ms, p.members = some ms → (transformProject p).members = some ms.nodes) ∧
    (p.members = none → (transformProject p).members = none) ∧
    (∀ pm, p.projectMilestones = some pm →
      (transformProject p).projectMilestones = some pm.nodes) ∧
    (p.projectMilestones = none → (transformProject p).projectMilestones = none) ∧
    (∀ iss, p.issues = some iss → (transformProject p).issues = some iss.nodes) ∧
    (p.issues = none → (transformProject p).issues = none) := by
  refine ⟨?_, ?_, ?_, ?_, ?_, ?_, ?_, ?_⟩ <;>
    intros <;> simp_all [transformProject]

/-- Witness for C7 at a concrete project with a present teams connection,
absent members and milestones, and a present issues connection. -/
theorem transform_project_flattens_witness :
    (transformProject
      { id := "p1", name := "Website", state := "started", lead := none,
        teams := some { nodes := [{ id := "t1", key := "ENG", name := "Engineering" }] },
        members := none, projectMilestones := none,
        issues := some { nodes := [{ id := "i1", identifier := "ENG-1", title := "Fix" }] } }).teams =
      [{ id := "t1", key := "ENG", name := "Engineering" }] ∧
    (transformProject
      { id := "p1", name := "Website", state := "started", lead := none,
        teams := some { nodes := [{ id := "t1", key := "ENG", name := "Engineering" }] },
        members := none, projectMilestones := none,
        issues := some { nodes := [{ id := "i1", identifier := "ENG-1", title := "Fix" }] } }).members =
      none := by
  have h := transform_project_flattens
    { id := "p1", name := "Website", state := "started", lead := none,
      teams := some { nodes := [{ id := "t1", key := "ENG", name := "Engineering" }] },
      members := none, projectMilestones := none,
      issues := some { nodes := [{ id := "i1", identifier := "ENG-1", title := "Fix" }] } }
  exact ⟨h.1 _ rfl, h.2.2.2.1 rfl⟩

/-- Update-mutation variables appearing in the trace of the update action are
exactly those assembled by `mkUpdateVars` from a successful resolution, with
the team ids tied to the `--team` option. -/
lemma updateProject_mem (input : String) (options : ProjectUpdateOptions)
    (env : ProjectUpdateEnv) (vars : UpdateVars)
    (h : Req.updateProject vars ∈ (projectsUpdateAction input options env).1) :
    ∃ pid tids reqs₀,
      resolveProjectIdFromGraphQL input env.findResult = (reqs₀, .ok pid) ∧
      vars = mkUpdateVars pid options tids ∧
      (options.team = none → tids = none) ∧
      (∀ t, options.team = some t →
        ∃ teamId, env.teamResolve = .ok teamId ∧ tids = some [teamId]) := by
  unfold projectsUpdateAction at h
  dsimp only at h
  split at h
  next => exact absurd h (List.not_mem_nil _)
  next =>
  split at h
  next => exact absurd h (List.not_mem_nil _)
  next =>
  split at h
  next => exact absurd h (List.not_mem_nil _)
  next =>
  split at h
  next reqs₀ e heq =>
    exfalso
    have hm := resolve_no_mutation input env.findResult (Req.updateProject vars)
      (by rw [heq]; exact h)
    simp [Req.isMutation] at hm
  next reqs₀ pid heq =>
  split at h
  next e heq₂ =>
    exfalso
    have hm := resolve_no_mutation input env.findResult (Req.updateProject vars)
      (by rw [heq]; exact h)
    simp [Req.isMutation] at hm
  next tids heq₂ =>
  rw [List.mem_append] at h
  rcases h with h | h
  · exfalso
    have hm := resolve_no_mutation input env.findResult (Req.updateProject vars)
      (by rw [heq]; exact h)
    simp [Req.isMutation] at hm
  · rw [List.mem_singleton] at h
    injection h with h
    refine ⟨pid, tids, reqs₀, heq, h, ?_, ?_⟩
    · intro ht
      rw [ht] at heq₂
      exact (Except.ok.inj heq₂).symm
    · intro t ht
      rw [ht] at heq₂
      cases hres : env.teamResolve with
      | error e => rw [hres] at heq₂; cases heq₂
      | ok teamId =>
        rw [hres] at heq₂
        exact ⟨teamId, rfl, (Except.ok.inj heq₂).symm⟩

/-- Claim C1: whenever the update action issues the update mutation, its
variables hold exactly the resolved project id plus the fields the caller
explicitly set — an unset option leaves its field absent (`none`), a set
option stores its value, and each clear flag stores an explicit null
(`some none`), which differs from the absent encoding. -/
theorem update_vars_exact (input : String) (options : ProjectUpdateOptions)
    (env : ProjectUpdateEnv) (vars : UpdateVars)
    (h : Req.updateProject vars ∈ (projectsUpdateAction input options env).1) :
    (∃ reqs₀, resolveProjectIdFromGraphQL input env.findResult =
      (reqs₀, .ok vars.id)) ∧
    vars.name = options.name ∧
    vars.description = options.description ∧
    vars.icon = options.icon ∧
    vars.color = options.color ∧
    (options.priority = none → vars.priority = none) ∧
    (∀ s, options.priority = some s → vars.priority = some (parseIntJS s)) ∧
    (options.clearLead = true → vars.leadId = some none) ∧
    (options.clearLead = false → options.lead = none → vars.leadId = none) ∧
    (∀ v, options.clearLead = false → options.lead = some v →
      vars.leadId = some (some v)) ∧
    (options.clearStartDate = true → vars.startDate = some none) ∧
    (options.clearStartDate = false → options.startDate = none →
      vars.startDate = none) ∧
    (∀ v, options.clearStartDate = false → options.startDate = some v →
      vars.startDate = some (some v)) ∧
    (options.clearTargetDate = true → vars.targetDate = some none) ∧
    (options.clearTargetDate = false → options.targetDate = none →
      vars.targetDate = none) ∧
    (∀ v, options.clearTargetDate = false → options.targetDate = some v →
      vars.targetDate = some (some v)) ∧
    (options.team = none → vars.teamIds = none) ∧
    (∀ t, options.team = some t →
      ∃ teamId, env.teamResolve = .ok teamId ∧ vars.teamIds = some [teamId]) := by
  obtain ⟨pid, tids, reqs₀, hres, hvars, htn, hts⟩ :=
    updateProject_mem input options env vars h
  subst hvars
  refine ⟨⟨reqs₀, hres⟩, rfl, rfl, rfl, rfl, ?_, ?_, ?_, ?_, ?_, ?_, ?_, ?_,
    ?_, ?_, ?_, ?_, ?_⟩
  · intro hp; simp [mkUpdateVars, hp]
  · intro s hp; simp [mkUpdateVars, hp]
  · intro hc; simp [mkUpdateVars, hc]
  · intro hc hl; simp [mkUpdateVars, hc, hl]
  · intro v hc hl; simp [mkUpdateVars, hc, hl]
  · intro hc; simp [mkUpdateVars, hc]
  · intro hc hl; simp [mkUpdateVars, hc, hl]
  · intro v hc hl; simp [mkUpdateVars, hc, hl]
  · intro hc; simp [mkUpdateVars, hc]
  · intro hc hl; simp [mkUpdateVars, hc, hl]
  · intro v hc hl; simp [mkUpdateVars, hc, hl]
  · intro ht; simpa [mkUpdateVars] using htn ht
  · intro t ht
    obtain ⟨teamId, h1, h2⟩ := hts t ht
    exact ⟨teamId, h1, by simpa [mkUpdateVars] using h2⟩

/-- Example project payload used by concrete witnesses. -/
def exProjectJson : ProjectJson :=
  { id := "p1", name := "Website", state := "started", lead := none,
    teams := some { nodes := [] }, members := none,
    projectMilestones := none, issues := none }

/-- Example UUID-shaped project id used by concrete witnesses. -/
def exUuid : String := "123e4567-e89b-12d3-a456-426614174000"

/-- Example `projects update` invocation: set a new name and a start date,
clear the lead, and leave everything else untouched. -/
def exUpdateOptions : ProjectUpdateOptions :=
  { name := some "New name", description := none, icon := none, color := none,
    lead := none, clearLead := true, priority := none,
    startDate := some "2025-01-01", clearStartDate := false,
    targetDate := none, clearTargetDate := false, team := none }

/-- Example environment for the update witness. -/
def exUpdateEnv : ProjectUpdateEnv :=
  { findResult := none, teamResolve := .ok "t1",
    updateResp := some { success := true, project := exProjectJson } }

/-- Witness for C1: in the concrete invocation the mutation variables carry
the set name and start date, an explicit null for the cleared lead, and
absent entries for the untouched description, target date and team. -/
theorem update_vars_exact_witness :
    (mkUpdateVars exUuid exUpdateOptions none).name = some "New name" ∧
    (mkUpdateVars exUuid exUpdateOptions none).leadId = some none ∧
    (mkUpdateVars exUuid exUpdateOptions none).startDate =
      some (some "2025-01-01") ∧
    (mkUpdateVars exUuid exUpdateOptions none).description = none ∧
    (mkUpdateVars exUuid exUpdateOptions none).targetDate = none ∧
    (mkUpdateVars exUuid exUpdateOptions none).teamIds = none := by
  have h := update_vars_exact exUuid exUpdateOptions exUpdateEnv
    (mkUpdateVars exUuid exUpdateOptions none) (by decide)
  obtain ⟨-, hname, hdesc, -, -, -, -, hcl, -, -, -, -, hsd, -, htd, -, htm, -⟩ := h
  exact ⟨hname.trans rfl, hcl rfl, hsd _ rfl rfl, hdesc.trans rfl,
    htd rfl rfl, htm rfl⟩

/-- Example `projects create` invocation used by the C2 theorems. -/
def exCreateOptions : ProjectCreateOptions :=
  { team := "ENG", description := none, icon := none, color := none,
    lead := none, priority := none, startDate := none, targetDate := none }

/-- Example failing environment for `projects create`. -/
def exCreateEnvFail : ProjectCreateEnv :=
  { teamResolve := .ok "team-uuid-1",
    createResp := some { success := false, project := exProjectJson } }

/-- Counterexample to C2: creating the project Acme Website for team ENG
against a response whose success flag is false fails with the bare message
Failed to create project, which contains neither the project name nor the
team identifier the user supplied. -/
theorem project_mutation_error_lacks_identifier :
    (projectsCreateAction ("Acme Website") exCreateOptions exCreateEnvFail).2 =
      .error (.error ("Failed to create project")) ∧
    strContains ("Failed to create project") ("Acme Website") = false ∧
    strContains ("Failed to create project") ("ENG") = false := by
  refine ⟨rfl, by decide, by decide⟩

/-- Claim C2 as amended: a non-success mutation response makes the command
fail with an operation-carrying error, but only the document and attachment
services embed the request identifiers in the message — the three project
mutations fail with fixed operation-only messages. -/
theorem mutation_failure_messages :
    (∀ name options env payload teamId,
      env.createResp = some payload → payload.success = false →
      env.teamResolve = Except.ok teamId →
      (projectsCreateAction name options env).2 =
        .error (.error ("Failed to create project"))) ∧
    (∀ input env payload reqs₀ pid,
      env.archiveResp = some payload → payload.success = false →
      resolveProjectIdFromGraphQL input env.findResult = (reqs₀, .ok pid) →
      (projectsArchiveAction input env).2 =
        .error (.error ("Failed to archive project"))) ∧
    (∀ input options env payload reqs₀ pid,
      env.updateResp = some payload → payload.success = false →
      (jsTruthy options.lead && options.clearLead) = false →
      (jsTruthy options.startDate && options.clearStartDate) = false →
      (jsTruthy options.targetDate && options.clearTargetDate) = false →
      (options.team = none ∨ ∃ t, env.teamResolve = Except.ok t) →
      resolveProjectIdFromGraphQL input env.findResult = (reqs₀, .ok pid) →
      (projectsUpdateAction input options env).2 =
        .error (.error ("Failed to update project"))) ∧
    (∀ input resp, resp.success = false →
      ∃ msg, createDocument input resp = .error (.error msg) ∧
        (∃ pre post, msg = pre ++ input.title ++ post) ∧
        (∀ pid, input.projectId = some pid → pid ≠ "" →
          ∃ pre post, msg = pre ++ pid ++ post) ∧
        (∀ tid, input.teamId = some tid → tid ≠ "" →
          ∃ pre post, msg = pre ++ tid ++ post)) ∧
    (∀ id resp, resp.success = false →
      ∃ msg, updateDocumentService id resp = .error (.error msg) ∧
        ∃ pre post, msg = pre ++ id ++ post) ∧
    (∀ input resp, resp.success = false →
      ∃ msg, createAttachment input resp = .error (.error msg) ∧
        (∃ pre post, msg = pre ++ input.issueId ++ post) ∧
        (∃ pre post, msg = pre ++ input.url ++ post)) := by
  refine ⟨?_, ?_, ?_, ?_, ?_, ?_⟩
  · intro name options env payload teamId hresp hsucc hteam
    simp [projectsCreateAction, hteam, hresp, hsucc]
  · intro input env payload reqs₀ pid hresp hsucc hres
    simp [projectsArchiveAction, hres, hresp, hsucc]
  · intro input options env payload reqs₀ pid hresp hsucc hv1 hv2 hv3 hteam hres
    have hteamok : ∃ tids, (match options.team with
        | none => Except.ok none
        | some _ => env.teamResolve.map (fun teamId => some [teamId])) =
        (Except.ok tids : Except Err (Option (List String))) := by
      cases hto : options.team with
      | none => exact ⟨none, rfl⟩
      | some s =>
        rcases hteam with hnone | ⟨t, ht⟩
        · rw [hto] at hnone; cases hnone
        · exact ⟨some [t], by simp [ht, Except.map]⟩
    obtain ⟨tids, htids⟩ := hteamok
    simp [projectsUpdateAction, hv1, hv2, hv3, hres, htids, hresp, hsucc]
  · intro input resp hsucc
    refine ⟨"Failed to create document \"" ++ input.title ++ "\"" ++
        (if jsTruthy input.projectId then
          " in project " ++ jsShowOpt input.projectId else "") ++
        (if jsTruthy input.teamId then
          " for team " ++ jsShowOpt input.teamId else ""),
      by simp [createDocument, hsucc], ?_, ?_, ?_⟩
    · exact ⟨"Failed to create document \"",
        "\"" ++
          (if jsTruthy input.projectId then
            " in project " ++ jsShowOpt input.projectId else "") ++
          (if jsTruthy input.teamId then
            " for team " ++ jsShowOpt input.teamId else ""),
        by simp [String.append_assoc]⟩
    · intro pid hpid hne
      have h1 : (if jsTruthy input.projectId then
          " in project " ++ jsShowOpt input.projectId else "") =
          " in project " ++ pid := by
        simp [jsTruthy, jsShowOpt, hpid, hne]
      refine ⟨"Failed to create document \"" ++ input.title ++ "\"" ++
        " in project ",
        (if jsTruthy input.teamId then
          " for team " ++ jsShowOpt input.teamId else ""), ?_⟩
      rw [h1]
      simp only [String.append_assoc]
    · intro tid htid hne
      have h2 : (if jsTruthy input.teamId then
          " for team " ++ jsShowOpt input.teamId else "") =
          " for team " ++ tid := by
        simp [jsTruthy, jsShowOpt, htid, hne]
      refine ⟨"Failed to create document \"" ++ input.title ++ "\"" ++
        (if jsTruthy input.projectId then
          " in project " ++ jsShowOpt input.projectId else "") ++
        " for team ", "", ?_⟩
      rw [h2, String.append_empty]
      simp only [String.append_assoc]
  · intro id resp hsucc
    refine ⟨"Failed to update document: " ++ id,
      by simp [updateDocumentService, hsucc],
      "Failed to update document: ", "",
      by rw [String.append_empty]⟩
  · intro input resp hsucc
    refine ⟨"Failed to create attachment on issue " ++ input.issueId ++
        " for URL \"" ++ input.url ++ "\"",
      by simp [createAttachment, hsucc], ?_, ?_⟩
    · exact ⟨"Failed to create attachment on issue ",
        " for URL \"" ++ input.url ++ "\"", by simp [String.append_assoc]⟩
    · exact ⟨"Failed to create attachment on issue " ++ input.issueId ++
        " for URL \"", "\"", by simp [String.append_assoc]⟩

/-- Example document used by concrete witnesses. -/
def exDocument : DocumentJson :=
  { id := "doc-1", title := "Meeting notes", slugId := "abc123",
    url := "https://linear.app/acme/document/meeting-notes-abc123" }

/-- Example document-create input used by concrete witnesses. -/
def exDocInput : DocumentCreateInput :=
  { title := "Meeting notes", content := none, projectId := some "p1",
    teamId := none, icon := none, color := none }

/-- Witness for the amended C2 at concrete inputs: the failing project create
yields the operation-only message, and a failing document create yields a
message embedding both the document title and the project id from the
input. -/
theorem mutation_failure_messages_witness :
    (projectsCreateAction ("Acme Website") exCreateOptions exCreateEnvFail).2 =
      .error (.error ("Failed to create project")) ∧
    (∃ msg, createDocument exDocInput { success := false, document := exDocument } =
      .error (.error msg) ∧
      (∃ pre post, msg = pre ++ "Meeting notes" ++ post) ∧
      (∃ pre post, msg = pre ++ "p1" ++ post)) := by
  have h := mutation_failure_messages
  obtain ⟨msg, heq, htitle, hproj, -⟩ :=
    h.2.2.2.1 exDocInput { success := false, document := exDocument } rfl
  exact ⟨h.1 ("Acme Website") exCreateOptions exCreateEnvFail _ _ rfl rfl rfl,
    msg, heq, htitle, hproj ("p1") rfl (by decide)⟩

/-- Counterexample to C8: `projects list --limit abc` does not fail with a
validation error — the action still issues the list query, forwarding the
unparseable limit (`parseInt` returned `NaN`, recorded as `none`), and
terminates successfully. -/
theorem projects_list_no_limit_validation :
    projectsListAction { limit := some "abc", includeArchived := false }
      { listResp := none } =
      ([Req.listProjects none false], .ok []) := by
  rfl

/-- Claim C8 as amended: `documents list` rejects a supplied non-empty limit
string that does not parse to an integer of at least 1, with a validation
error naming the value and before issuing any request; `projects list`
performs no such validation and always issues the list query with whatever
`parseInt` produced. -/
theorem documents_list_limit_validation (options : DocumentListOptions)
    (env : DocumentListEnv) (s : String)
    (hs : options.limit = some s) (hne : s ≠ "")
    (hbad : parseIntJS s = none ∨ ∃ k, parseIntJS s = some k ∧ k < 1)
    (hnoconflict : (jsTruthy options.project && jsTruthy options.issue) = false) :
    documentsListAction options env =
      ([], .error (.error ("Invalid limit \"" ++ s ++
        "\": must be a positive number"))) ∧
    (∀ opts : ProjectListOptions, ∀ penv : ProjectListEnv, ∃ out,
      projectsListAction opts penv =
        ([Req.listProjects (parseIntJS (jsOrDefault opts.limit ("100")))
          opts.includeArchived], .ok out)) := by
  have hdef : jsOrDefault options.limit ("50") = s := by
    simp [jsOrDefault, hs, hne]
  have hshow : jsShowOpt options.limit = s := by simp [jsShowOpt, hs]
  constructor
  · rcases hbad with hnone | ⟨k, hk, hklt⟩
    · simp [documentsListAction, hnoconflict, hdef, hshow, hnone]
    · simp [documentsListAction, hnoconflict, hdef, hshow, hk, hklt]
  · intro opts penv
    exact ⟨_, rfl⟩

/-- Example environment for `documents list` witnesses. -/
def exDocListEnv : DocumentListEnv :=
  { parseUrl := fun _ => none, resolveIssue := .ok "issue-uuid-1",
    attachments := .ok [], docsBySlug := [], resolveProject := .ok "p1",
    docs := [] }

/-- Witness for the amended C8: `documents list --limit abc` fails with the
validation error and no request, while `projects list --limit abc` issues the
query anyway. -/
theorem documents_list_limit_validation_witness :
    documentsListAction { project := none, issue := none, limit := some "abc" }
      exDocListEnv =
      ([], .error (.error ("Invalid limit \"abc\": must be a positive number"))) ∧
    (∃ out, projectsListAction { limit := some "abc", includeArchived := false }
      { listResp := none } =
      ([Req.listProjects (parseIntJS (jsOrDefault (some "abc") ("100")))
        false], .ok out)) := by
  have h := documents_list_limit_validation
    { project := none, issue := none, limit := some "abc" } exDocListEnv ("abc")
    rfl (by decide) (Or.inl rfl) rfl
  exact ⟨h.1, h.2 { limit := some "abc", includeArchived := false }
    { listResp := none }⟩

/-- Insertion-order dedup produces a duplicate-free list whose elements avoid
the seen accumulator. -/
lemma dedupGo_nodup (xs : List String) : ∀ seen,
    (dedupGo seen xs).Nodup ∧ ∀ y ∈ dedupGo seen xs, y ∉ seen := by
  induction xs with
  | nil =>
    intro seen
    exact ⟨List.nodup_nil, by intro y hy; cases hy⟩
  | cons x rest ih =>
    intro seen
    by_cases hx : x ∈ seen
    · rw [dedupGo, if_pos hx]
      exact ih seen
    · rw [dedupGo, if_neg hx]
      obtain ⟨hnd, hns⟩ := ih (x :: seen)
      refine ⟨List.nodup_cons.mpr ⟨fun hmem => (hns x hmem)
        (List.mem_cons_self x seen), hnd⟩, ?_⟩
      intro y hy
      rcases List.mem_cons.mp hy with rfl | hy2
      · exact hx
      · exact fun hyseen => (hns y hy2) (List.mem_cons_of_mem x hyseen)

/-- JavaScript-Set deduplication returns a duplicate-free list. -/
lemma jsSetDedup_nodup (xs : List String) : (jsSetDedup xs).Nodup :=
  (dedupGo_nodup xs []).1

/-- Characterization of the `documents list --issue` branch: once the issue is
resolved and the attachments fetched, the listing short-circuits to an empty
output when no document slug id was extracted, and otherwise issues exactly
one slug-id lookup carrying the deduplicated ids. -/
lemma documentsList_issue_branch (options : DocumentListOptions)
    (env : DocumentListEnv) (issueId : String)
    (attachments : List AttachmentJson) (limit : Int)
    (hni : jsTruthy options.issue = true)
    (hnp : jsTruthy options.project = false)
    (hlim : parseIntJS (jsOrDefault options.limit ("50")) = some limit)
    (hpos : 1 ≤ limit)
    (hresolve : env.resolveIssue = .ok issueId)
    (hatt : env.attachments = .ok attachments) :
    (jsSetDedup (attachments.filterMap
        (fun att => extractDocumentIdFromUrl env.parseUrl att.url)) = [] →
      documentsListAction options env = ([Req.listAttachments issueId], .ok [])) ∧
    (∀ ids, jsSetDedup (attachments.filterMap
        (fun att => extractDocumentIdFromUrl env.parseUrl att.url)) = ids →
      ids ≠ [] →
      documentsListAction options env =
        ([Req.listAttachments issueId, Req.listDocumentsBySlugIds ids limit],
          .ok env.docsBySlug)) := by
  have hcond : (jsTruthy options.project && jsTruthy options.issue) = false := by
    rw [hnp]; rfl
  have hlt : ¬ (limit < 1) := not_lt.mpr hpos
  constructor
  · intro hids
    simp [documentsListAction, hcond, hnp, hlim, hlt, hni, hresolve, hatt, hids]
  · intro ids hids hne
    simp [documentsListAction, hcond, hnp, hlim, hlt, hni, hresolve, hatt, hids, hne]

/-- Claim C10: in `documents list --issue` the slug ids extracted from the
attachments are deduplicated before the document lookup (the id list passed
on is duplicate-free), and when no attachment yields a slug id the command
outputs an empty list without issuing any document query. -/
theorem slug_ids_deduplicated (options : DocumentListOptions)
    (env : DocumentListEnv) (issueId : String)
    (attachments : List AttachmentJson) (limit : Int)
    (hni : jsTruthy options.issue = true)
    (hnp : jsTruthy options.project = false)
    (hlim : parseIntJS (jsOrDefault options.limit ("50")) = some limit)
    (hpos : 1 ≤ limit)
    (hresolve : env.resolveIssue = .ok issueId)
    (hatt : env.attachments = .ok attachments) :
    (jsSetDedup (attachments.filterMap
        (fun att => extractDocumentIdFromUrl env.parseUrl att.url))).Nodup ∧
    (jsSetDedup (attachments.filterMap
        (fun att => extractDocumentIdFromUrl env.parseUrl att.url)) = [] →
      documentsListAction options env = ([Req.listAttachments issueId], .ok [])) ∧
    (∀ ids, jsSetDedup (attachments.filterMap
        (fun att => extractDocumentIdFromUrl env.parseUrl att.url)) = ids →
      ids ≠ [] →
      documentsListAction options env =
        ([Req.listAttachments issueId, Req.listDocumentsBySlugIds ids limit],
          .ok env.docsBySlug)) := by
  obtain ⟨h1, h2⟩ := documentsList_issue_branch options env issueId attachments
    limit hni hnp hlim hpos hresolve hatt
  exact ⟨jsSetDedup_nodup _, h1, h2⟩

/-- Example URL-parser oracle: recognizes one Linear document URL (twice
reachable), one non-Linear URL, and fails on everything else. -/
def exParseUrl : String → Option ParsedUrl := fun u =>
  if u == "https://linear.app/acme/document/meeting-notes-abc123" then
    some { hostname := "linear.app",
           pathname := "/acme/document/meeting-notes-abc123" }
  else if u == "https://example.com/x" then
    some { hostname := "example.com", pathname := "/x" }
  else none

/-- Example attachment list: the same Linear document attached twice, one
non-Linear URL, one malformed URL. -/
def exAttachments : List AttachmentJson :=
  [{ id := "a1", title := "doc",
     url := "https://linear.app/acme/document/meeting-notes-abc123" },
   { id := "a2", title := "doc again",
     url := "https://linear.app/acme/document/meeting-notes-abc123" },
   { id := "a3", title := "ext", url := "https://example.com/x" },
   { id := "a4", title := "junk", url := "not a url" }]

/-- Example `documents list --issue` environment with the above attachments. -/
def exIssueListEnv : DocumentListEnv :=
  { parseUrl := exParseUrl, resolveIssue := .ok "issue-uuid-1",
    attachments := .ok exAttachments, docsBySlug := [exDocument],
    resolveProject := .ok "p1", docs := [] }

/-- Example `documents list --issue ABC-123` options. -/
def exIssueListOptions : DocumentListOptions :=
  { project := none, issue := some "ABC-123", limit := none }

/-- Witness for C10: with a duplicated document attachment the slug-id list
collapses to the single id abc123 and the lookup request carries exactly it. -/
theorem slug_ids_deduplicated_witness :
    documentsListAction exIssueListOptions exIssueListEnv =
      ([Req.listAttachments ("issue-uuid-1"),
        Req.listDocumentsBySlugIds (["abc123"]) 50], .ok [exDocument]) := by
  have h := slug_ids_deduplicated exIssueListOptions exIssueListEnv
    ("issue-uuid-1") exAttachments 50 rfl rfl rfl (by decide) rfl rfl
  exact h.2.2 ["abc123"] (by decide) (by decide)

/-- Claim C6: a malformed attachment URL (the parser throws) or a URL that is
not a Linear document URL makes `extractDocumentIdFromUrl` return null rather
than failing, and the `documents list --issue` listing still succeeds with the
documents extracted from the remaining attachments. -/
theorem malformed_urls_skipped :
    (∀ parse url, parse url = none →
      extractDocumentIdFromUrl parse url = none) ∧
    (∀ parse url parsed, parse url = some parsed →
      strContains parsed.hostname ("linear.app") = false →
      extractDocumentIdFromUrl parse url = none) ∧
    (∀ options env issueId attachments limit,
      jsTruthy options.issue = true → jsTruthy options.project = false →
      parseIntJS (jsOrDefault options.limit ("50")) = some limit → 1 ≤ limit →
      env.resolveIssue = .ok issueId → env.attachments = .ok attachments →
      ∃ docs, (documentsListAction options env).2 = .ok docs) := by
  refine ⟨?_, ?_, ?_⟩
  · intro parse url h
    simp [extractDocumentIdFromUrl, h]
  · intro parse url parsed h hhost
    simp [extractDocumentIdFromUrl, h, hhost]
  · intro options env issueId attachments limit hni hnp hlim hpos hresolve hatt
    obtain ⟨h1, h2⟩ := documentsList_issue_branch options env issueId
      attachments limit hni hnp hlim hpos hresolve hatt
    by_cases hids : jsSetDedup (attachments.filterMap
        (fun att => extractDocumentIdFromUrl env.parseUrl att.url)) = []
    · exact ⟨[], by rw [h1 hids]⟩
    · exact ⟨env.docsBySlug, by rw [h2 _ rfl hids]⟩

/-- Witness for C6: the malformed URL and the non-Linear URL both extract to
null, and the concrete listing over the mixed attachment list succeeds. -/
theorem malformed_urls_skipped_witness :
    extractDocumentIdFromUrl exParseUrl ("not a url") = none ∧
    extractDocumentIdFromUrl exParseUrl ("https://example.com/x") = none ∧
    (∃ docs, (documentsListAction exIssueListOptions exIssueListEnv).2 =
      .ok docs) := by
  have h := malformed_urls_skipped
  exact ⟨h.1 exParseUrl ("not a url") (by decide),
    h.2.1 exParseUrl ("https://example.com/x")
      { hostname := "example.com", pathname := "/x" } (by decide) (by decide),
    h.2.2 exIssueListOptions exIssueListEnv ("issue-uuid-1") exAttachments 50
      rfl rfl rfl (by decide) rfl rfl⟩

/-- Claim C9: when `documents create --attach-to` creates the document but the
attachment mutation fails, the command fails with an error whose message
embeds the created document's id, the issue reference the user typed, and a
ready-to-run retry command — and the trace contains no document deletion, so
the created document is not rolled back. -/
theorem attach_failure_actionable_error (options : DocumentCreateOptions)
    (env : DocumentCreateEnv) (issueId : String)
    (hattach : jsTruthy options.attachTo = true)
    (hpe : ∃ p, env.resolveProject = .ok p)
    (hte : ∃ t, env.resolveTeam = .ok t)
    (hdoc : env.createResp.success = true)
    (hres : env.resolveIssue = .ok issueId)
    (hfail : env.attachResp.success = false) :
    ∃ msg, (documentsCreateAction options env).2 = .error (.error msg) ∧
      (∃ pre post, msg = pre ++ env.createResp.document.id ++ post) ∧
      (∀ a, options.attachTo = some a →
        (∃ pre post, msg = pre ++ a ++ post) ∧
        (∃ pre, msg = pre ++
          ("linearis attachments create --issue \"" ++ a ++ "\" --url \"" ++
            env.createResp.document.url ++ "\" --title \"" ++
            env.createResp.document.title ++ "\""))) ∧
      (∀ id, Req.deleteDocument id ∉ (documentsCreateAction options env).1) := by
  obtain ⟨p, hp⟩ := hpe
  obtain ⟨t, ht⟩ := hte
  have hpid : (if jsTruthy options.project then env.resolveProject.map some
      else .ok none) =
      (Except.ok (if jsTruthy options.project then some p else none) :
        Except Err (Option String)) := by
    by_cases h : jsTruthy options.project <;> simp [h, hp, Except.map]
  have htid : (if jsTruthy options.team then env.resolveTeam.map some
      else .ok none) =
      (Except.ok (if jsTruthy options.team then some t else none) :
        Except Err (Option String)) := by
    by_cases h : jsTruthy options.team <;> simp [h, ht, Except.map]
  have hact : documentsCreateAction options env =
      ([Req.createDocument
          { title := options.title, content := options.content,
            projectId := if jsTruthy options.project then some p else none,
            teamId := if jsTruthy options.team then some t else none,
            icon := options.icon, color := options.color },
        Req.createAttachment
          { issueId := issueId, url := env.createResp.document.url,
            title := env.createResp.document.title, subtitle := none,
            commentBody := none, iconUrl := none }],
       .error (.error (attachFailMsg env.createResp.document
         (jsShowOpt options.attachTo)
         ("Failed to create attachment on issue " ++ issueId ++
           " for URL \"" ++ env.createResp.document.url ++ "\"")))) := by
    unfold documentsCreateAction
    rw [hpid, htid]
    simp [createDocument, hdoc, hattach, hres, createAttachment, hfail,
      errMessage]
  refine ⟨attachFailMsg env.createResp.document (jsShowOpt options.attachTo)
    ("Failed to create attachment on issue " ++ issueId ++ " for URL \"" ++
      env.createResp.document.url ++ "\""), by rw [hact], ?_, ?_, ?_⟩
  · refine ⟨"Document created (",
      ") but failed to attach to issue \"" ++ jsShowOpt options.attachTo ++
        "\": " ++ ("Failed to create attachment on issue " ++ issueId ++
          " for URL \"" ++ env.createResp.document.url ++ "\"") ++ ". " ++
        "To retry attachment: linearis attachments create --issue \"" ++
        jsShowOpt options.attachTo ++ "\" --url \"" ++
        env.createResp.document.url ++ "\" --title \"" ++
        env.createResp.document.title ++ "\"", ?_⟩
    simp [attachFailMsg, String.append_assoc]
  · intro a ha
    have hshow : jsShowOpt options.attachTo = a := by simp [jsShowOpt, ha]
    constructor
    · refine ⟨"Document created (" ++ env.createResp.document.id ++
        ") but failed to attach to issue \"",
        "\": " ++ ("Failed to create attachment on issue " ++ issueId ++
          " for URL \"" ++ env.createResp.document.url ++ "\"") ++ ". " ++
        "To retry attachment: linearis attachments create --issue \"" ++ a ++
        "\" --url \"" ++ env.createResp.document.url ++ "\" --title \"" ++
        env.createResp.document.title ++ "\"", ?_⟩
      simp [attachFailMsg, hshow, String.append_assoc]
    · have hsplit : "To retry attachment: linearis attachments create --issue \"" =
        "To retry attachment: " ++ "linearis attachments create --issue \"" := by
        decide
      refine ⟨"Document created (" ++ env.createResp.document.id ++
        ") but failed to attach to issue \"" ++ a ++ "\": " ++
        ("Failed to create attachment on issue " ++ issueId ++
          " for URL \"" ++ env.createResp.document.url ++ "\"") ++ ". " ++
        "To retry attachment: ", ?_⟩
      rw [attachFailMsg, hshow, hsplit]
      simp only [String.append_assoc]
  · intro id
    rw [hact]
    simp

/-- Example attachment payload for the C9 witness. -/
def exAttachment : AttachmentJson :=
  { id := "att-1", title := "Meeting notes",
    url := "https://linear.app/acme/document/meeting-notes-abc123" }

/-- Example `documents create --attach-to ABC-123` options. -/
def exDocCreateOptions : DocumentCreateOptions :=
  { title := "Meeting notes", content := none, project := none, team := none,
    icon := none, color := none, attachTo := some "ABC-123" }

/-- Example environment where document creation succeeds and the follow-up
attachment fails. -/
def exDocCreateEnvAttachFail : DocumentCreateEnv :=
  { resolveProject := .ok "p1", resolveTeam := .ok "t1",
    createResp := { success := true, document := exDocument },
    resolveIssue := .ok "issue-uuid-1",
    attachResp := { success := false, attachment := exAttachment } }

/-- Witness for C9: the concrete failed attachment yields an error message
containing the created document id doc-1 and the typed issue ABC-123. -/
theorem attach_failure_actionable_error_witness :
    ∃ msg, (documentsCreateAction exDocCreateOptions
        exDocCreateEnvAttachFail).2 = .error (.error msg) ∧
      (∃ pre post, msg = pre ++ "doc-1" ++ post) ∧
      (∃ pre post, msg = pre ++ "ABC-123" ++ post) := by
  obtain ⟨msg, h1, h2, h3, h4⟩ := attach_failure_actionable_error
    exDocCreateOptions exDocCreateEnvAttachFail ("issue-uuid-1") rfl
    ⟨"p1", rfl⟩ ⟨"t1", rfl⟩ rfl rfl rfl
  exact ⟨msg, h1, h2, (h3 ("ABC-123") rfl).1⟩

end Linearis
